import Mathlib

/-!
# Verification of the CAPTCHA core of `login_screen.py`

Shallow embedding of the CAPTCHA generation and session-verification logic
of the login-screen program, together with proofs of its specified
properties.

Modelling conventions:

* Time (`time.time()` readings and `created_at`) is modelled as `Int`
  (epoch seconds).  The program uses a floating-point clock, but every
  property treated here concerns only ordering and differences of times,
  which the integer model preserves exactly.
* The clock and the random source are implicit global effects in the
  program; here they are passed explicitly: `create` receives the current
  clock reading `now : Int` and a choice function `pick : Nat → Nat`
  selecting the index of each captcha character, and `is_valid` / `verify`
  receive the clock reading at the moment of the call.
* Python truthiness is modelled explicitly: `not self.text` is true when
  `text` is `None` or the empty string; `not self.created_at` is true when
  `created_at` is `None` or `0`.
* The raster content of the captcha image is GUI/PIL territory and is not
  modelled; only the image's presence and its fixed dimensions matter to
  the properties below, so the image is embedded as its dimensions.
* `str.strip` and `str.upper` are embedded as `pyStrip` and `pyUpper`
  below (ASCII whitespace set of `str.strip`, ASCII case mapping; all
  strings handled by the program's captcha logic are ASCII).
-/

/-- `CAPTCHA_LENGTH = 5` from the configuration block. -/
def CAPTCHA_LENGTH : Nat := 5

/-- `CAPTCHA_WIDTH = 260` from the configuration block. -/
def CAPTCHA_WIDTH : Nat := 260

/-- `CAPTCHA_HEIGHT = 90` from the configuration block. -/
def CAPTCHA_HEIGHT : Nat := 90

/-- `CAPTCHA_TTL_SECONDS = 120` from the configuration block. -/
def CAPTCHA_TTL_SECONDS : Int := 120

/-- Python's `string.ascii_uppercase`. -/
def ascii_uppercase : String := "ABCDEFGHIJKLMNOPQRSTUVWXYZ"

/-- Python's `string.digits`. -/
def string_digits : String := "0123456789"

/-- The ambiguous glyphs removed from the captcha alphabet. -/
def AMBIGUOUS_CHARS : String := "0O1IJL"

/-- `ALLOWED_CHARS = ''.join(ch for ch in (string.ascii_uppercase +
string.digits) if ch not in "0O1IJL")`. -/
def ALLOWED_CHARS : String :=
  String.mk ((ascii_uppercase ++ string_digits).toList.filter
    (fun ch => !(AMBIGUOUS_CHARS.toList.contains ch)))

/-- Python `str.strip`'s whitespace test, restricted to ASCII
(space, tab, newline, carriage return, vertical tab, form feed). -/
def pyIsSpace (c : Char) : Bool :=
  c == ' ' || c == '\t' || c == '\n' || c == '\r' || c == '\x0b' || c == '\x0c'

/-- Python `str.strip()`: removes leading and trailing whitespace. -/
def pyStrip (s : String) : String :=
  String.mk (((s.toList.dropWhile pyIsSpace).reverse.dropWhile pyIsSpace).reverse)

/-- Python `str.upper()` (ASCII case mapping). -/
def pyUpper (s : String) : String :=
  String.mk (s.toList.map Char.toUpper)

/-- `generate_captcha_text(length)`: `length` characters, each chosen from
`ALLOWED_CHARS` by the random source.  `random.choice` picks one element of
the alphabet; the choice function `pick` supplies, for each position, an
arbitrary natural number reduced modulo the alphabet size to an index. -/
def generate_captcha_text (length : Nat) (pick : Nat → Nat) : String :=
  String.mk ((List.range length).map (fun i =>
    ALLOWED_CHARS.toList.get
      ⟨pick i % ALLOWED_CHARS.toList.length, Nat.mod_lt _ (by decide)⟩))

/-- The captcha image, embedded as its dimensions (the raster content —
noise lines, rotated glyphs, dots, filters — is not modelled; no verified
property depends on pixel content). -/
structure CaptchaImage where
  width : Nat
  height : Nat
deriving DecidableEq, Repr

/-- `render_captcha_image(text, ...)` produces an image of the fixed
configured dimensions. -/
def render_captcha_image (_text : String) : CaptchaImage :=
  { width := CAPTCHA_WIDTH, height := CAPTCHA_HEIGHT }

/-- The in-memory captcha session: fields `text`, `image`, `created_at`,
each initially `None` in `__init__`. -/
structure CaptchaSession where
  text : Option String
  image : Option CaptchaImage
  created_at : Option Int
deriving DecidableEq, Repr

/-- `CaptchaSession.__init__`: all three fields start as `None`. -/
def CaptchaSession.init : CaptchaSession :=
  { text := none, image := none, created_at := none }

/-- `create()`: generates a fresh text, renders its image, and stamps
`created_at` with the current clock reading, unconditionally overwriting
any prior challenge. -/
def CaptchaSession.create (_s : CaptchaSession) (pick : Nat → Nat)
    (now : Int) : CaptchaSession :=
  let t := generate_captcha_text CAPTCHA_LENGTH pick
  { text := some t, image := some (render_captcha_image t), created_at := some now }

/-- Python truthiness of the `text` field: `not self.text` holds when the
field is `None` or the empty string. -/
def pyTruthyText : Option String → Bool
  | none => false
  | some t => !t.isEmpty

/-- Python truthiness of the `created_at` field: `not self.created_at`
holds when the field is `None` or `0`. -/
def pyTruthyTime : Option Int → Bool
  | none => false
  | some q => q != 0

/-- `is_valid()`: false when `not self.text or not self.created_at`;
otherwise `(time.time() - self.created_at) <= CAPTCHA_TTL_SECONDS`. -/
def CaptchaSession.is_valid (s : CaptchaSession) (now : Int) : Bool :=
  if !pyTruthyText s.text || !pyTruthyTime s.created_at then false
  else decide (now - s.created_at.getD 0 ≤ CAPTCHA_TTL_SECONDS)

/-- `verify(attempt)`: expired when invalid; otherwise compares
`attempt.strip().upper()` with `self.text.upper()`.  (`self.text` is a
non-`None` string whenever `is_valid` holds, so totalising the access with
`getD ""` never takes its default on the reachable branch.) -/
def CaptchaSession.verify (s : CaptchaSession) (now : Int)
    (attempt : String) : Bool × String :=
  if !(s.is_valid now) then (false, "expired")
  else if pyUpper (pyStrip attempt) == pyUpper (s.text.getD "") then (true, "ok")
  else (false, "incorrect")

/-- `verify(attempt)` as a state transformer: a line-by-line translation of
the method body threading `self` through.  No statement of the body
assigns to `self`, so each branch returns the incoming state. -/
def CaptchaSession.verifySt (s : CaptchaSession) (now : Int)
    (attempt : String) : CaptchaSession × (Bool × String) :=
  if !(s.is_valid now) then (s, (false, "expired"))
  else if pyUpper (pyStrip attempt) == pyUpper (s.text.getD "") then (s, (true, "ok"))
  else (s, (false, "incorrect"))

/-- The session states reachable through the program's operations:
construction (`__init__`), `create()`, and the caller's consumption of a
challenge after a successful login (`self.captcha.text = None`, line 293).
`is_valid` and `verify` do not mutate the session (see the frame theorem),
so they add no states. -/
inductive Reachable : CaptchaSession → Prop where
  | init : Reachable CaptchaSession.init
  | create (s : CaptchaSession) (pick : Nat → Nat) (now : Int) :
      Reachable s → Reachable (s.create pick now)
  | consume (s : CaptchaSession) :
      Reachable s → Reachable { s with text := none }

/-- The atomicity property claimed of session states: the three fields are
all unset or all set together. -/
def allOrNothing (s : CaptchaSession) : Prop :=
  (s.text = none ∧ s.image = none ∧ s.created_at = none) ∨
  (s.text.isSome ∧ s.image.isSome ∧ s.created_at.isSome)

instance (s : CaptchaSession) : Decidable (allOrNothing s) := by
  unfold allOrNothing; infer_instance

/-! ## Helper lemmas -/

lemma dropWhile_eq_self_of (p : Char → Bool) (l : List Char)
    (h : ∀ c ∈ l, p c = false) : l.dropWhile p = l := by
  cases l with
  | nil => rfl
  | cons a t => simp [List.dropWhile_cons, h a (List.mem_cons_self a t)]

lemma pyStrip_eq_self (s : String) (h : ∀ c ∈ s.toList, pyIsSpace c = false) :
    pyStrip s = s := by
  have h2 : ∀ c ∈ s.toList.reverse, pyIsSpace c = false :=
    fun c hc => h c (List.mem_reverse.mp hc)
  unfold pyStrip
  rw [dropWhile_eq_self_of _ _ h, dropWhile_eq_self_of _ _ h2,
    List.reverse_reverse]
  cases s
  rfl

lemma allowed_chars_not_space :
    ∀ c ∈ ALLOWED_CHARS.toList, pyIsSpace c = false := by decide

lemma allowed_chars_not_ambiguous :
    ∀ c ∈ ALLOWED_CHARS.toList, c ∉ AMBIGUOUS_CHARS.toList := by decide

lemma generate_captcha_text_toList (length : Nat) (pick : Nat → Nat) :
    (generate_captcha_text length pick).toList =
      (List.range length).map (fun i =>
        ALLOWED_CHARS.toList.get
          ⟨pick i % ALLOWED_CHARS.toList.length, Nat.mod_lt _ (by decide)⟩) := rfl

lemma generate_captcha_text_length (length : Nat) (pick : Nat → Nat) :
    (generate_captcha_text length pick).length = length := by
  show ((List.range length).map _).length = length
  rw [List.length_map, List.length_range]

lemma generate_captcha_text_mem_allowed (length : Nat) (pick : Nat → Nat) :
    ∀ c ∈ (generate_captcha_text length pick).toList,
      c ∈ ALLOWED_CHARS.toList := by
  intro c hc
  rw [generate_captcha_text_toList] at hc
  obtain ⟨i, -, rfl⟩ := List.mem_map.mp hc
  exact List.get_mem _ _ _

lemma generate_captcha_text_not_space (length : Nat) (pick : Nat → Nat) :
    ∀ c ∈ (generate_captcha_text length pick).toList, pyIsSpace c = false :=
  fun c hc =>
    allowed_chars_not_space c (generate_captcha_text_mem_allowed length pick c hc)

lemma generate_captcha_text_ne_empty (pick : Nat → Nat) :
    generate_captcha_text CAPTCHA_LENGTH pick ≠ "" := by
  intro h
  have h5 := generate_captcha_text_length CAPTCHA_LENGTH pick
  rw [h] at h5
  exact absurd h5 (by decide)

lemma generate_captcha_text_isEmpty (pick : Nat → Nat) :
    (generate_captcha_text CAPTCHA_LENGTH pick).isEmpty = false := by
  cases hb : (generate_captcha_text CAPTCHA_LENGTH pick).isEmpty with
  | false => rfl
  | true =>
    exact absurd ((String.isEmpty_iff _).mp hb)
      (generate_captcha_text_ne_empty pick)

/-! ## Claim theorems -/

/-- C4: every challenge text produced by `generate_captcha_text` with the
default configuration has length exactly 5 (the configured length), and
every one of its characters belongs to the restricted alphabet
`ALLOWED_CHARS`; in particular no character is one of the ambiguous glyphs
`0, O, 1, I, J, L`. -/
theorem captcha_text_length_and_alphabet (pick : Nat → Nat) :
    (generate_captcha_text CAPTCHA_LENGTH pick).length = 5 ∧
    ∀ c ∈ (generate_captcha_text CAPTCHA_LENGTH pick).toList,
      c ∈ ALLOWED_CHARS.toList ∧ c ∉ AMBIGUOUS_CHARS.toList := by
  refine ⟨generate_captcha_text_length CAPTCHA_LENGTH pick, fun c hc => ?_⟩
  have hmem := generate_captcha_text_mem_allowed CAPTCHA_LENGTH pick c hc
  exact ⟨hmem, allowed_chars_not_ambiguous c hmem⟩

/-- Witness for C4 at the concrete choice function that always picks
index 0, producing the text `AAAAA`. -/
theorem captcha_text_length_and_alphabet_witness :
    (generate_captcha_text CAPTCHA_LENGTH (fun _ => 0)).length = 5 ∧
    ('A' ∈ ALLOWED_CHARS.toList ∧ 'A' ∉ AMBIGUOUS_CHARS.toList) :=
  ⟨(captcha_text_length_and_alphabet (fun _ => 0)).1,
   (captcha_text_length_and_alphabet (fun _ => 0)).2 'A' (by decide)⟩

/-- C6: on a freshly constructed session, before any `create()`,
`is_valid()` is false and `verify(attempt)` is `(False, "expired")` for
every attempt and at every time. -/
theorem init_invalid_and_expired (now : Int) (attempt : String) :
    CaptchaSession.init.is_valid now = false ∧
    CaptchaSession.init.verify now attempt = (false, "expired") :=
  ⟨rfl, rfl⟩

/-- C3: `verify(attempt)` reports reason `"expired"` exactly when
`is_valid()` is false at that moment; when invalid the full outcome is
`(False, "expired")` regardless of the attempt, and when valid the reason
is never `"expired"`. -/
theorem verify_expired_iff_invalid (s : CaptchaSession) (now : Int)
    (attempt : String) :
    ((s.verify now attempt).2 = "expired" ↔ s.is_valid now = false) ∧
    (s.is_valid now = false → s.verify now attempt = (false, "expired")) := by
  unfold CaptchaSession.verify
  cases h : s.is_valid now with
  | false => simp [h]
  | true =>
    simp only [h, Bool.not_true, Bool.false_eq_true, if_false]
    constructor
    · split <;> simp
    · intro hh
      exact absurd hh (by simp)

/-- Witness for C3 at the fresh session, time 0, attempt `"x"`. -/
theorem verify_expired_iff_invalid_witness :
    CaptchaSession.init.verify 0 "x" = (false, "expired") :=
  (verify_expired_iff_invalid CaptchaSession.init 0 "x").2 (by decide)

/-- C1: after `create()` at clock reading `T` (a nonzero epoch time, as
`time.time()` always is), verifying the stored text itself at clock
reading `t` yields `(True, "ok")` whenever `t - T ≤ 120` (the bound is
inclusive) and `(False, "expired")` whenever `t - T > 120`, even though
the attempt equals the stored text. -/
theorem verify_ttl_boundary (s0 : CaptchaSession) (pick : Nat → Nat)
    (T t : Int) (hT : T ≠ 0) :
    (t - T ≤ 120 →
      (s0.create pick T).verify t ((s0.create pick T).text.getD "") =
        (true, "ok")) ∧
    (120 < t - T →
      (s0.create pick T).verify t ((s0.create pick T).text.getD "") =
        (false, "expired")) := by
  have hvalid : (s0.create pick T).is_valid t = decide (t - T ≤ 120) := by
    simp [CaptchaSession.create, CaptchaSession.is_valid, pyTruthyText,
      pyTruthyTime, generate_captcha_text_isEmpty, hT, CAPTCHA_TTL_SECONDS]
  have hstrip : pyStrip (generate_captcha_text CAPTCHA_LENGTH pick) =
      generate_captcha_text CAPTCHA_LENGTH pick :=
    pyStrip_eq_self _ (generate_captcha_text_not_space _ _)
  have htext : (s0.create pick T).text.getD "" =
      generate_captcha_text CAPTCHA_LENGTH pick := rfl
  constructor
  · intro hle
    have hb : (s0.create pick T).is_valid t = true := by
      rw [hvalid]
      exact decide_eq_true hle
    simp [CaptchaSession.verify, hb, htext, hstrip]
  · intro hgt
    have hb : (s0.create pick T).is_valid t = false := by
      rw [hvalid]
      exact decide_eq_false (not_le.mpr hgt)
    simp [CaptchaSession.verify, hb]

/-- Witness for C1 at `T = 100` with attempts at `t = 219` (age 119,
valid) and `t = 221` (age 121, expired). -/
theorem verify_ttl_boundary_witness :
    (CaptchaSession.init.create (fun _ => 0) 100).verify 219
        ((CaptchaSession.init.create (fun _ => 0) 100).text.getD "") =
      (true, "ok") ∧
    (CaptchaSession.init.create (fun _ => 0) 100).verify 221
        ((CaptchaSession.init.create (fun _ => 0) 100).text.getD "") =
      (false, "expired") :=
  ⟨(verify_ttl_boundary CaptchaSession.init (fun _ => 0) 100 219
      (by decide)).1 (by decide),
   (verify_ttl_boundary CaptchaSession.init (fun _ => 0) 100 221
      (by decide)).2 (by decide)⟩

/-- C2: on a session holding a valid challenge with stored text `txt`,
`verify(attempt)` yields `(True, "ok")` exactly when the attempt, after
stripping surrounding whitespace, equals `txt` up to letter case; any
trimmed attempt that differs case-insensitively yields
`(False, "incorrect")`. -/
theorem verify_match_iff (s : CaptchaSession) (now : Int)
    (txt attempt : String) (htxt : s.text = some txt)
    (hvalid : s.is_valid now = true) :
    (s.verify now attempt = (true, "ok") ↔
      pyUpper (pyStrip attempt) = pyUpper txt) ∧
    (pyUpper (pyStrip attempt) ≠ pyUpper txt →
      s.verify now attempt = (false, "incorrect")) := by
  have hbody : s.verify now attempt =
      if pyUpper (pyStrip attempt) == pyUpper txt then (true, "ok")
      else (false, "incorrect") := by
    simp [CaptchaSession.verify, hvalid, htxt]
  rw [hbody]
  cases hc : (pyUpper (pyStrip attempt) == pyUpper txt) with
  | true =>
    rw [beq_iff_eq] at hc
    simp [hc]
  | false =>
    rw [beq_eq_false_iff_ne] at hc
    simp [hc]

/-- Witness for C2 at stored text `"AB3FQ"` and attempt `" ab3fq "`. -/
theorem verify_match_iff_witness :
    ({ text := some "AB3FQ", image := some (render_captcha_image "AB3FQ"),
        created_at := some 100 } : CaptchaSession).verify 100 " ab3fq " =
      (true, "ok") :=
  (verify_match_iff _ 100 "AB3FQ" " ab3fq " rfl (by decide)).1.mpr (by decide)

/-- C7: `verify` does not mutate the session: read as a state transformer,
it returns the incoming state unchanged in all three outcomes, and its
result component agrees with the pure `verify`. -/
theorem verify_no_mutation (s : CaptchaSession) (now : Int)
    (attempt : String) :
    (s.verifySt now attempt).1 = s ∧
    (s.verifySt now attempt).2 = s.verify now attempt := by
  unfold CaptchaSession.verifySt CaptchaSession.verify
  constructor
  · split
    · rfl
    · split <;> rfl
  · split
    · rfl
    · split <;> rfl

/-- C9: when the challenge text is unset or empty — in particular in the
consumed state left by a successful login, where `image` and `created_at`
remain set — `is_valid()` is false and `verify` reports
`(False, "expired")` for every attempt, even within the TTL. -/
theorem consumed_or_empty_expired (s : CaptchaSession) (now : Int)
    (attempt : String) (h : s.text = none ∨ s.text = some "") :
    s.is_valid now = false ∧ s.verify now attempt = (false, "expired") := by
  have hq : ("" : String).isEmpty = true := rfl
  have hv : s.is_valid now = false := by
    unfold CaptchaSession.is_valid
    rcases h with h | h <;> simp [h, pyTruthyText, hq]
  refine ⟨hv, ?_⟩
  simp [CaptchaSession.verify, hv]

/-- Witness for C9 at the consumed state (text cleared, image and
timestamp still present) queried at the creation instant itself. -/
theorem consumed_or_empty_expired_witness :
    ({ text := none, image := some (render_captcha_image "AAAAA"),
        created_at := some 100 } : CaptchaSession).is_valid 100 = false ∧
    ({ text := none, image := some (render_captcha_image "AAAAA"),
        created_at := some 100 } : CaptchaSession).verify 100 "AAAAA" =
      (false, "expired") :=
  consumed_or_empty_expired _ 100 "AAAAA" (Or.inl rfl)

/-- C10: a challenge whose `created_at` lies strictly in the future
relative to the current time is accepted as valid: the age check
`current_time - created_at <= TTL` has no lower bound, so a negative age
passes. -/
theorem future_created_at_valid (s : CaptchaSession) (now T : Int)
    (txt : String) (htxt : s.text = some txt) (hne : txt ≠ "")
    (hc : s.created_at = some T) (hT : T ≠ 0) (hfut : now < T) :
    s.is_valid now = true := by
  have hE : txt.isEmpty = false := by
    cases hb : txt.isEmpty with
    | false => rfl
    | true => exact absurd ((String.isEmpty_iff _).mp hb) hne
  unfold CaptchaSession.is_valid
  simp [htxt, hc, pyTruthyText, pyTruthyTime, hE, hT, CAPTCHA_TTL_SECONDS]
  omega

/-- Witness for C10: challenge stamped at time 1000, queried at time 500. -/
theorem future_created_at_valid_witness :
    ({ text := some "AB3FQ", image := some (render_captcha_image "AB3FQ"),
        created_at := some 1000 } : CaptchaSession).is_valid 500 = true :=
  future_created_at_valid _ 500 1000 "AB3FQ" rfl (by decide) rfl (by decide)
    (by decide)

/-- Counterexample to C5 as stated: the state reached by `create()` at
time 100 followed by the successful-login consumption (`text = None`,
line 293) is reachable, yet its fields are neither all unset nor all set —
`text` is `None` while `image` and `created_at` remain set. -/
theorem session_atomicity_counterexample :
    Reachable { CaptchaSession.init.create (fun _ => 0) 100 with
      text := none } ∧
    ¬ allOrNothing { CaptchaSession.init.create (fun _ => 0) 100 with
      text := none } :=
  ⟨Reachable.consume _ (Reachable.create _ _ _ Reachable.init), by decide⟩

/-- C5 amended: in every reachable session state, whenever the challenge
text is set it is non-empty and `image` and `created_at` are set with it
(`create()` is atomic); but the caller's consumption after a successful
login clears only `text`, so `image` and `created_at` may remain set with
no text. -/
theorem reachable_text_invariant (s : CaptchaSession) (h : Reachable s) :
    ∀ txt, s.text = some txt →
      txt ≠ "" ∧ s.image.isSome ∧ s.created_at.isSome := by
  induction h with
  | init =>
    intro txt ht
    exact absurd ht (by simp [CaptchaSession.init])
  | create s pick now _ _ =>
    intro txt ht
    rw [show (s.create pick now).text =
        some (generate_captcha_text CAPTCHA_LENGTH pick) from rfl,
      Option.some.injEq] at ht
    subst ht
    exact ⟨generate_captcha_text_ne_empty pick, rfl, rfl⟩
  | consume s _ _ =>
    intro txt ht
    exact absurd ht (by simp)

/-- Witness for the amended C5 at the state created at time 100 with the
constant-zero choice function, whose text is `AAAAA`. -/
theorem reachable_text_invariant_witness :
    "AAAAA" ≠ "" ∧
    (CaptchaSession.init.create (fun _ => 0) 100).image.isSome ∧
    (CaptchaSession.init.create (fun _ => 0) 100).created_at.isSome :=
  reachable_text_invariant _ (Reachable.create _ _ _ Reachable.init)
    "AAAAA" (by decide)

/-- Counterexample to C8 as stated: `create()` stamps `created_at` with
the clock reading at the call, so two consecutive calls at the same clock
reading (the code never inspects or perturbs the previous stamp) produce
equal `created_at` values. -/
theorem create_same_clock_counterexample :
    ((CaptchaSession.init.create (fun _ => 0) 100).create (fun _ => 0)
        100).created_at =
      (CaptchaSession.init.create (fun _ => 0) 100).created_at := rfl

/-- C8 amended: each `create()` stamps `created_at` with the current clock
reading, so two consecutive `create()` calls produce different
`created_at` values exactly when the clock readings at the two calls
differ (the code itself adds no tie-breaking). -/
theorem create_created_at_differs (s0 : CaptchaSession)
    (pick1 pick2 : Nat → Nat) (t1 t2 : Int) (h : t1 ≠ t2) :
    ((s0.create pick1 t1).create pick2 t2).created_at ≠
      (s0.create pick1 t1).created_at := by
  simp [CaptchaSession.create]
  omega

/-- Witness for the amended C8 with clock readings 100 and 101. -/
theorem create_created_at_differs_witness :
    ((CaptchaSession.init.create (fun _ => 0) 100).create (fun _ => 0)
        101).created_at ≠
      (CaptchaSession.init.create (fun _ => 0) 100).created_at :=
  create_created_at_differs _ _ _ 100 101 (by decide)
